import Mathlib

/-!
Shallow embedding of the MQTT ingestion pipeline of Systems-One-Server
(roles/systems_one_ingest/files/app/mqtt_ingest/), covering:

  * ingest_models.py : parse_topic, parse_payload, build_event, _safe_str,
    _safe_int
  * device_status_store.py : _normalize_status, upsert_status,
    ensure_from_event
  * device_os_status_store.py : ensure_from_event, upsert_os_version
  * device_storage_status_store.py : _normalize_drive
  * device_statistics_store.py : insert_from_event, _safe_int_or_zero
  * mqtt_client.py : the per-store try/except structure of
    MQTTConnector._on_message

Modelling conventions:
  * JSON values (the result of Python json.loads) are the inductive `JVal`.
    JSON numbers are modelled as integers (the payload fields evaluated by
    the claims are integer counters / identifiers); objects are association
    lists with the first binding of a key authoritative, mirroring the
    unique-key dictionaries json.loads produces.
  * Python `datetime` values are represented by the integer
    epoch-milliseconds they are derived from: the stores only move
    timestamps around, never compute with them.
  * The raw payload bytes are abstracted by the outcome of the (total,
    replacement-based) UTF-8 decode followed by json.loads: `RawPayload`.
  * Database tables are in-memory states: the per-device current-state rows
    are `Option` of a row structure, the append-only statistics table is a
    `List` of rows.
  * A Python call that may raise an exception is a function returning the
    state it left behind plus a `Bool` that is `true` when it raised.
-/

/-- A JSON value as produced by Python `json.loads`.  Numbers are modelled
as integers. -/
inductive JVal where
  | null : JVal
  | bool (b : Bool) : JVal
  | int (n : Int) : JVal
  | str (s : String) : JVal
  | arr (xs : List JVal) : JVal
  | obj (fields : List (String × JVal)) : JVal

/-- Python `dict.get(key)` on a JSON object: the value bound to `key`, or
`None` (= `JVal.null`, which Python's json maps to `None` as well) when the
key is absent. -/
def jget (fields : List (String × JVal)) (key : String) : JVal :=
  match fields.find? (fun kv => kv.1 = key) with
  | some kv => kv.2
  | none => JVal.null

mutual

/-- Python `repr(value)` on JSON data, as used by `str` on the elements of
a list/dict; string escaping inside the quotes is elided (no claim inspects
it). -/
def pyRepr : JVal → String
  | .null => "None"
  | .bool b => if b then "True" else "False"
  | .int n => toString n
  | .str s => "'" ++ s ++ "'"
  | .arr xs => "[" ++ pyReprList xs ++ "]"
  | .obj fs => "\x7b" ++ pyReprFields fs ++ "\x7d"

/-- Comma-joined `repr`s of the elements of a JSON array. -/
def pyReprList : List JVal → String
  | [] => ""
  | [x] => pyRepr x
  | x :: xs => pyRepr x ++ ", " ++ pyReprList xs

/-- Comma-joined `repr(k): repr(v)` entries of a JSON object. -/
def pyReprFields : List (String × JVal) → String
  | [] => ""
  | [kv] => "'" ++ kv.1 ++ "': " ++ pyRepr kv.2
  | kv :: fs => "'" ++ kv.1 ++ "': " ++ pyRepr kv.2 ++ ", " ++ pyReprFields fs

end

/-- Python `str(value)` on a JSON value.  Scalars follow Python exactly
(`str(True) = "True"`, `str(5) = "5"`, `str(None) = "None"`); containers
render through `repr` of their elements as in Python. -/
def pyStr : JVal → String
  | .str s => s
  | v => pyRepr v

/-- `ingest_models._safe_str`: `None → None`, a `str` passes through, any
other value becomes `str(value)` (which never raises on JSON data). -/
def safe_str : JVal → Option String
  | .null => none
  | .str s => some s
  | v => some (pyStr v)

/-- Python `str.strip()` on a character list: whitespace removed from both
ends. -/
def pyStripWs (s : List Char) : List Char :=
  ((s.dropWhile Char.isWhitespace).reverse.dropWhile Char.isWhitespace).reverse

/-- Python `str.strip()`. -/
def pyStrip (s : String) : String :=
  String.mk (pyStripWs s.data)

/-- Python `str.lower()` (per-character; ASCII, which covers every string
the stores compare after lowering). -/
def pyLower (s : String) : String :=
  String.mk (s.data.map Char.toLower)

/-- Python `int(string)`: optional surrounding whitespace, an optional
sign, then at least one digit, with single underscores allowed between
digits; anything else raises (modelled as `none`). -/
def pyIntOfString (s : String) : Option Int :=
  let t := pyStrip s
  let core : List Char → Option Nat := fun cs =>
    let rec go : List Char → Bool → Option Nat → Option Nat
      | [], afterDigit, acc => if afterDigit then acc else none
      | c :: cs, afterDigit, acc =>
        if c.isDigit then
          go cs true (some ((acc.getD 0) * 10 + (c.toNat - '0'.toNat)))
        else if c = '_' then
          -- an underscore must sit between two digits
          if afterDigit then
            match cs with
            | d :: _ => if d.isDigit then go cs false acc else none
            | [] => none
          else none
        else none
    go cs false none
  match t.data with
  | '-' :: rest => (core rest).map (fun n => -(n : Int))
  | '+' :: rest => (core rest).map (fun n => (n : Int))
  | cs => (core cs).map (fun n => (n : Int))

/-- `ingest_models._safe_int`: `None → None`, `bool → 0/1`, `int` passes
through, a string is parsed with Python `int(...)`, and values on which
`int(...)` raises (lists, dicts, non-numeric strings) become `None`. -/
def safe_int : JVal → Option Int
  | .null => none
  | .bool b => some (if b then 1 else 0)
  | .int n => some n
  | .str s => pyIntOfString s
  | .arr _ => none
  | .obj _ => none

/-- The parsed topic (`ingest_models.TopicInfo`).  The first field is named
`pfx` because `prefix` is reserved in Lean. -/
structure TopicInfo where
  pfx : String
  customer : String
  location : String
  machine : String
  subtype : String
deriving Repr, DecidableEq

/-- Python `s.split("/")` on the character list of a string (single-char
separator semantics: `"a//b" → ["a","","b"]`, `"" → [""]`). -/
def splitSlash : List Char → List (List Char)
  | [] => [[]]
  | c :: cs =>
    if c = '/' then [] :: splitSlash cs
    else
      match splitSlash cs with
      | [] => [[c]]
      | w :: ws => (c :: w) :: ws

/-- Python `s.strip("/")`: remove `'/'` characters from both ends. -/
def pyStripSlashes (s : List Char) : List Char :=
  ((s.dropWhile (fun c => c = '/')).reverse.dropWhile (fun c => c = '/')).reverse

/-- Python `"/".join(words)` on character lists. -/
def joinSlash : List (List Char) → List Char
  | [] => []
  | [w] => w
  | w :: ws => w ++ '/' :: joinSlash ws

/-- The non-empty `/`-separated segments of a topic string (the list
`[p for p in topic.split("/") if p]`). -/
def topicSegments (topic : String) : List (List Char) :=
  (splitSlash topic.data).filter (fun p => p ≠ [])

/-- `ingest_models.parse_topic`: strip surrounding slashes, split on `/`,
drop empty segments, require at least five; the first four segments become
`prefix/customer/location/machine` and the rest re-join as `subtype`. -/
def parse_topic (topic : String) : Option TopicInfo :=
  let parts := ((splitSlash (pyStripSlashes topic.data)).filter (fun p => p ≠ []))
  match parts with
  | p0 :: p1 :: p2 :: p3 :: rest =>
    match rest with
    | [] => none
    | _ :: _ =>
      some { pfx := String.mk p0
             customer := String.mk p1
             location := String.mk p2
             machine := String.mk p3
             subtype := String.mk (joinSlash rest) }
  | _ => none

/-- Raw MQTT payload bytes, abstracted by the outcome of the two total
front-end steps of `ingest_models.parse_payload`: the UTF-8 decode (strict,
falling back to replacement, so it never fails) followed by `json.loads`.
`empty` is the falsy `b""`; `badJson` means `json.loads` raised on the
decoded text; `decoded v` means `json.loads` returned the value `v`. -/
inductive RawPayload where
  | empty : RawPayload
  | badJson : RawPayload
  | decoded (v : JVal) : RawPayload

/-- `ingest_models.parse_payload`: empty bytes or a JSON parse failure give
`None`; a parsed value is kept only when it is an object (`Mapping`). -/
def parse_payload : RawPayload → Option (List (String × JVal))
  | .empty => none
  | .badJson => none
  | .decoded v =>
    match v with
    | .obj fields => some fields
    | _ => none

/-- The decoded domain event (`ingest_models.IngestEvent`). -/
structure IngestEvent where
  pfx : String
  customer : String
  location : String
  machine : String
  subtype : String
  serial_number : Option String
  ts_ms : Option Int
  qos : Option Int
  retain : Option Bool
  payload : Option (List (String × JVal))

/-- `ingest_models.build_event`: reject only on a malformed topic; pull
`serial_number` (via `_safe_str`) and `ts` (via `_safe_int`) out of the
payload when the payload parsed to an object. -/
def build_event (topic : String) (payload_bytes : RawPayload)
    (qos : Option Int) (retain : Option Bool) : Option IngestEvent :=
  match parse_topic topic with
  | none => none
  | some info =>
    let payload := parse_payload payload_bytes
    let serial : Option String :=
      match payload with
      | some p => safe_str (jget p "serial_number")
      | none => none
    let ts : Option Int :=
      match payload with
      | some p => safe_int (jget p "ts")
      | none => none
    some { pfx := info.pfx
           customer := info.customer
           location := info.location
           machine := info.machine
           subtype := info.subtype
           serial_number := serial
           ts_ms := ts
           qos := qos
           retain := retain
           payload := payload }

/-- `_event_timestamp` (shared by all stores): an event timestamp in
epoch-milliseconds becomes `(epoch seconds, datetime)`, where the datetime
is modelled by its epoch-milliseconds; when the event has no `ts`, the
wall clock `now` (also epoch-milliseconds) is used instead. -/
def event_timestamp (ev : IngestEvent) (now : Int) : Int × Int :=
  match ev.ts_ms with
  | some ts => (Int.fdiv ts 1000, ts)
  | none => (Int.fdiv now 1000, now)

/-- A row of `dbo.device_status` (the per-device slice: `device_id` is the
key under which the row is stored, `created_at`/`updated_at` audit columns
are elided). -/
structure StatusRow where
  status : String
  ts_epoch : Int
  ts_datetime : Int
  offline_since : Option Int
deriving Repr, DecidableEq

/-- `device_status_store._normalize_status`: strip/lower the value's
string form and keep it only when it is `"online"` or `"offline"`. -/
def normalize_status (v : JVal) : Option String :=
  match v with
  | .null => none
  | v =>
    let s := pyLower (pyStrip (pyStr v))
    if s = "online" ∨ s = "offline" then some s else none

/-- `DeviceStatusStore.upsert_status` on the device's row.  Insert when the
row is missing (`offline_since` = the event datetime iff going offline);
otherwise refresh status and timestamps, preserving a non-null
`offline_since` while offline and clearing it when online. -/
def upsert_status (row? : Option StatusRow) (status : String)
    (ts_epoch ts_datetime : Int) : StatusRow :=
  match row? with
  | none =>
    { status := status
      ts_epoch := ts_epoch
      ts_datetime := ts_datetime
      offline_since := if status = "offline" then some ts_datetime else none }
  | some row =>
    { status := status
      ts_epoch := ts_epoch
      ts_datetime := ts_datetime
      offline_since :=
        if status = "offline" then
          match row.offline_since with
          | some t => some t
          | none => some ts_datetime
        else none }

/-- `DeviceStatusStore.ensure_from_event` as a transformer of the device's
row: a no-op unless the event has subtype `"status"`, an object payload and
a recognized `device_status` value. -/
def status_ensure_from_event (ev : IngestEvent) (now : Int)
    (row? : Option StatusRow) : Option StatusRow :=
  if ev.subtype ≠ "status" then row?
  else
    match ev.payload with
    | none => row?
    | some payload =>
      match normalize_status (jget payload "device_status") with
      | none => row?
      | some status =>
        let ts := event_timestamp ev now
        some (upsert_status row? status ts.1 ts.2)

/-- A row of `dbo.device_os_status` (per-device slice, audit columns
elided). -/
structure OsRow where
  os_version : String
  ts_epoch : Int
  ts_datetime : Int
deriving Repr, DecidableEq

/-- `DeviceOsStatusStore.upsert_os_version` on the device's row: insert or
overwrite the version and timestamp fields unconditionally. -/
def upsert_os_version (os_version : String) (ts_epoch ts_datetime : Int) :
    OsRow :=
  { os_version := os_version, ts_epoch := ts_epoch, ts_datetime := ts_datetime }

/-- `DeviceOsStatusStore.ensure_from_event` as a transformer of the
device's row: a no-op unless the event has subtype `"status"`, an object
payload and a `device_os_version` whose string form is non-empty after
trimming. -/
def os_ensure_from_event (ev : IngestEvent) (now : Int)
    (row? : Option OsRow) : Option OsRow :=
  if ev.subtype ≠ "status" then row?
  else
    match ev.payload with
    | none => row?
    | some payload =>
      match safe_str (jget payload "device_os_version") with
      | none => row?
      | some os0 =>
        if os0 = "" then row?
        else
          let os1 := pyStrip os0
          if os1 = "" then row?
          else
            let ts := event_timestamp ev now
            some (upsert_os_version os1 ts.1 ts.2)

/-- A row of `dbo.device_statistics` (audit column elided). -/
structure StatsRow where
  device_id : Int
  ts_epoch : Int
  ts_datetime : Int
  total_items : Int
  no_read : Int
  good_read : Int
  no_dimension : Int
  no_weight : Int
  data_sent : Int
  not_sent : Int
  image_sent : Int
  image_not_sent : Int
  item_out_of_spec : Int
  more_than_1_item : Int
deriving Repr, DecidableEq

/-- `device_statistics_store._safe_int_or_zero`. -/
def safe_int_or_zero (v : JVal) : Int :=
  match safe_int v with
  | none => 0
  | some n => n

/-- The row `DeviceStatisticsStore.insert_from_event` builds from a
`statistics` payload object (the payload-key → DB-column mapping of the
source). -/
def statsRowOfMap (device_id ts_epoch ts_datetime : Int)
    (stats : List (String × JVal)) : StatsRow :=
  { device_id := device_id
    ts_epoch := ts_epoch
    ts_datetime := ts_datetime
    total_items := safe_int_or_zero (jget stats "total_items")
    no_read := safe_int_or_zero (jget stats "no_reads")
    good_read := safe_int_or_zero (jget stats "good_reads")
    no_dimension := safe_int_or_zero (jget stats "no_dimensions")
    no_weight := safe_int_or_zero (jget stats "no_weight")
    data_sent := safe_int_or_zero (jget stats "sent")
    not_sent := safe_int_or_zero (jget stats "not_sent")
    image_sent := safe_int_or_zero (jget stats "image_sent")
    image_not_sent := safe_int_or_zero (jget stats "image_not_sent")
    item_out_of_spec := safe_int_or_zero (jget stats "out_of_spec")
    more_than_1_item := safe_int_or_zero (jget stats "more_than_one_item") }

/-- `DeviceStatisticsStore.insert_from_event` as a transformer of the
append-only table: a no-op unless the event has subtype `"statistics"`, an
object payload and an object-valued `statistics` field; an accepted packet
appends exactly one new row (no lookup, no merge). -/
def stats_insert_from_event (ev : IngestEvent) (device_id : Int) (now : Int)
    (table : List StatsRow) : List StatsRow :=
  if ev.subtype ≠ "statistics" then table
  else
    match ev.payload with
    | none => table
    | some payload =>
      match jget payload "statistics" with
      | .obj stats =>
        let ts := event_timestamp ev now
        table ++ [statsRowOfMap device_id ts.1 ts.2 stats]
      | _ => table

/-- `device_storage_status_store._normalize_drive` on a JSON object key
(always a string, so the `str` branch of the source applies): strip, take
the first character when the second is `":"`, uppercase, then require a
single `A`–`Z` character.  Uppercasing is per-character (ASCII); on inputs
where Python's full-string `.upper()` differs it changes only the rejection
path taken, never the verdict. -/
def normalize_drive (value : String) : Option String :=
  let drive := pyStrip value
  if drive = "" then none
  else
    let cs0 := drive.data
    let cs1 :=
      match cs0 with
      | c0 :: c1 :: _ => if c1 = ':' then [c0] else cs0
      | _ => cs0
    let cs2 := cs1.map Char.toUpper
    match cs2 with
    | [c] => if 'A' ≤ c ∧ c ≤ 'Z' then some (String.mk [c]) else none
    | _ => none

/-- The store-dispatch section of `MQTTConnector._on_message` for a decoded
event, with all four stores wired (as `main.py` wires them).  Each store's
`apply` is an arbitrary behavior `IngestEvent → σ → σ × Bool`: it maps the
store's state to the state the call left behind plus `true` when the call
raised an exception.  The `try/except Exception` around each call is
modelled by keeping the resulting state and discarding the raised flag: the
dispatcher continues with the next store either way and always returns.
`deviceResolved` is `true` when the device-identity upsert (itself guarded
by its own `try/except`) returned a row; the four store blocks run only in
that case, each additionally guarded by its subtype. -/
def on_message_dispatch {σ₁ σ₂ σ₃ σ₄ : Type}
    (ev : IngestEvent) (deviceResolved : Bool)
    (statusCall : IngestEvent → σ₁ → σ₁ × Bool)
    (osCall : IngestEvent → σ₂ → σ₂ × Bool)
    (storageCall : IngestEvent → σ₃ → σ₃ × Bool)
    (statsCall : IngestEvent → σ₄ → σ₄ × Bool)
    (st : σ₁ × σ₂ × σ₃ × σ₄) : σ₁ × σ₂ × σ₃ × σ₄ :=
  let s1 :=
    if deviceResolved ∧ ev.subtype = "status" then (statusCall ev st.1).1
    else st.1
  let s2 :=
    if deviceResolved ∧ ev.subtype = "status" then (osCall ev st.2.1).1
    else st.2.1
  let s3 :=
    if deviceResolved ∧ ev.subtype = "storage" then (storageCall ev st.2.2.1).1
    else st.2.2.1
  let s4 :=
    if deviceResolved ∧ ev.subtype = "statistics" then (statsCall ev st.2.2.2).1
    else st.2.2.2
  (s1, s2, s3, s4)

/-- Processing a list of delivered messages whose device identity resolved,
one `_on_message` dispatch after the other (the session's message loop). -/
def process_messages {σ₁ σ₂ σ₃ σ₄ : Type}
    (statusCall : IngestEvent → σ₁ → σ₁ × Bool)
    (osCall : IngestEvent → σ₂ → σ₂ × Bool)
    (storageCall : IngestEvent → σ₃ → σ₃ × Bool)
    (statsCall : IngestEvent → σ₄ → σ₄ × Bool)
    (msgs : List IngestEvent) (st : σ₁ × σ₂ × σ₃ × σ₄) : σ₁ × σ₂ × σ₃ × σ₄ :=
  msgs.foldl
    (fun s ev => on_message_dispatch ev true statusCall osCall storageCall
      statsCall s) st

/-- The Status Store row invariant: `offline_since` is non-null iff the
row's status is `"offline"`. -/
def StatusInv (r : StatusRow) : Prop :=
  r.offline_since.isSome ↔ r.status = "offline"

/-- A statistics event the Statistics Store accepts: subtype
`"statistics"`, an object payload, and an object-valued `statistics`
field. -/
def stats_accepted (ev : IngestEvent) : Prop :=
  ev.subtype = "statistics" ∧
  ∃ payload stats, ev.payload = some payload ∧
    jget payload "statistics" = JVal.obj stats

/- ### Auxiliary lemmas about topic splitting -/

/-- `splitSlash` never returns the empty list (Python `split` always
yields at least one field). -/
theorem splitSlash_ne_nil (s : List Char) : splitSlash s ≠ [] := by
  induction s with
  | nil => simp [splitSlash]
  | cons c cs ih =>
    simp only [splitSlash]
    split
    · simp
    · cases h : splitSlash cs with
      | nil => exact absurd h ih
      | cons w ws => simp [h]

/-- A trailing separator contributes exactly one trailing empty field. -/
theorem splitSlash_append_slash (s : List Char) :
    splitSlash (s ++ ['/']) = splitSlash s ++ [[]] := by
  induction s with
  | nil => simp [splitSlash]
  | cons c cs ih =>
    simp only [List.cons_append, splitSlash]
    split
    · simp [ih]
    · simp only [List.append_eq]
      rw [ih]
      cases h : splitSlash cs with
      | nil => exact absurd h (splitSlash_ne_nil cs)
      | cons w ws => simp [h]

/-- Dropping leading slashes does not change the non-empty fields. -/
theorem filter_splitSlash_dropWhile (s : List Char) :
    (splitSlash (s.dropWhile (fun c => c = '/'))).filter (fun p => p ≠ []) =
    (splitSlash s).filter (fun p => p ≠ []) := by
  induction s with
  | nil => rfl
  | cons c cs ih =>
    by_cases hc : c = '/'
    · subst hc
      rw [List.dropWhile_cons_of_pos (by simp), ih]
      simp [splitSlash]
    · rw [List.dropWhile_cons_of_neg (by simp [hc])]

/-- Dropping trailing slashes does not change the non-empty fields. -/
theorem filter_splitSlash_dropTrailing (s : List Char) :
    (splitSlash ((s.reverse.dropWhile (fun c => c = '/')).reverse)).filter
      (fun p => p ≠ []) =
    (splitSlash s).filter (fun p => p ≠ []) := by
  induction s using List.reverseRecOn with
  | nil => rfl
  | append_singleton s c ih =>
    by_cases hc : c = '/'
    · subst hc
      rw [List.reverse_append, List.reverse_singleton, List.singleton_append,
        List.dropWhile_cons_of_pos (by simp), ih, splitSlash_append_slash,
        List.filter_append]
      simp
    · rw [List.reverse_append, List.reverse_singleton, List.singleton_append,
        List.dropWhile_cons_of_neg (by simp [hc]), List.reverse_cons,
        List.reverse_reverse]

/-- Python's `.strip("/")` is invisible after empty fields are filtered
out. -/
theorem filter_splitSlash_pyStrip (s : List Char) :
    (splitSlash (pyStripSlashes s)).filter (fun p => p ≠ []) =
    (splitSlash s).filter (fun p => p ≠ []) := by
  unfold pyStripSlashes
  rw [filter_splitSlash_dropTrailing (s.dropWhile (fun c => c = '/'))]
  exact filter_splitSlash_dropWhile s

/-- `parse_topic` expressed over the non-empty segments of the raw split
(the `.strip("/")` step eliminated by `filter_splitSlash_pyStrip`). -/
theorem parse_topic_segments (topic : String) :
    parse_topic topic =
      match topicSegments topic with
      | p0 :: p1 :: p2 :: p3 :: rest@(_ :: _) =>
        some { pfx := String.mk p0
               customer := String.mk p1
               location := String.mk p2
               machine := String.mk p3
               subtype := String.mk (joinSlash rest) }
      | _ => none := by
  unfold parse_topic topicSegments
  rw [filter_splitSlash_pyStrip]
  rcases h : (splitSlash topic.data).filter (fun p => p ≠ []) with
    _ | ⟨p0, _ | ⟨p1, _ | ⟨p2, _ | ⟨p3, _ | ⟨p4, rest⟩⟩⟩⟩⟩ <;>
    rw [h]

/- ### Claim theorems -/

/-- C4: the decoder splits the topic on `/`, discards empty segments,
yields no event when fewer than 5 non-empty segments remain, and otherwise
takes prefix/customer/location/machine from the first four segments in
order and rejoins the remaining segments with `/` as the subtype. -/
theorem C4_topic_decoder (topic : String) :
    ((topicSegments topic).length < 5 → parse_topic topic = none) ∧
    (∀ p0 p1 p2 p3 rest,
      topicSegments topic = p0 :: p1 :: p2 :: p3 :: rest → rest ≠ [] →
      parse_topic topic =
        some { pfx := String.mk p0
               customer := String.mk p1
               location := String.mk p2
               machine := String.mk p3
               subtype := String.mk (joinSlash rest) }) := by
  constructor
  · intro hlt
    rw [parse_topic_segments]
    rcases h : topicSegments topic with
      _ | ⟨p0, _ | ⟨p1, _ | ⟨p2, _ | ⟨p3, _ | ⟨p4, rest⟩⟩⟩⟩⟩
    · rfl
    · rfl
    · rfl
    · rfl
    · rfl
    · rw [h] at hlt
      simp at hlt
      omega
  · intro p0 p1 p2 p3 rest h hne
    rw [parse_topic_segments, h]
    cases rest with
    | nil => exact absurd rfl hne
    | cons r4 rest => rfl

/-- C4 witness: the decoder at the concrete topic
`iot/acme/plant1/line3/status/extra`. -/
theorem C4_topic_decoder_witness :
    parse_topic "iot/acme/plant1/line3/status/extra" =
      some { pfx := "iot", customer := "acme", location := "plant1",
             machine := "line3", subtype := "status/extra" } := by
  have h := (C4_topic_decoder "iot/acme/plant1/line3/status/extra").2
    "iot".data "acme".data "plant1".data "line3".data
    ["status".data, "extra".data] (by decide) (by decide)
  exact h

/-- C6: drive normalization sends `"C"`, `"c:"` and `"C:\"` to `"C"`,
rejects `"CC"` and `"1"` (the drive is skipped, not an error — the
function returns `none`), and every accepted identifier is a single
uppercase `A`–`Z` character. -/
theorem C6_drive_normalization :
    normalize_drive "C" = some "C" ∧
    normalize_drive "c:" = some "C" ∧
    normalize_drive "C:\\" = some "C" ∧
    normalize_drive "CC" = none ∧
    normalize_drive "1" = none ∧
    ∀ s d, normalize_drive s = some d →
      ∃ c, d = String.mk [c] ∧ 'A' ≤ c ∧ c ≤ 'Z' := by
  refine ⟨by decide, by decide, by decide, by decide, by decide, ?_⟩
  intro s d h
  simp only [normalize_drive] at h
  split at h
  · exact absurd h (by simp)
  · split at h
    · split at h
      · simp only [Option.some.injEq] at h
        subst h
        rename_i hcond
        exact ⟨_, rfl, hcond.1, hcond.2⟩
      · exact absurd h (by simp)
    · exact absurd h (by simp)

/-- C6 witness: the general part of `C6_drive_normalization` applied at
the concrete input `"d:"`. -/
theorem C6_drive_normalization_witness :
    ∃ c, "D" = String.mk [c] ∧ 'A' ≤ c ∧ c ≤ 'Z' :=
  C6_drive_normalization.2.2.2.2.2 "d:" "D" (by decide)

/-- C8: for a topic with at least 5 non-empty segments, an empty,
unparsable or non-object payload body still yields a decoded event with
empty payload (and hence no serial number and no timestamp); `build_event`
yields nothing only when the topic itself is malformed. -/
theorem C8_payload_failure_not_fatal (topic : String) (rp : RawPayload)
    (q : Option Int) (r : Option Bool) :
    (∀ info, parse_topic topic = some info → parse_payload rp = none →
      build_event topic rp q r =
        some { pfx := info.pfx, customer := info.customer,
               location := info.location, machine := info.machine,
               subtype := info.subtype, serial_number := none, ts_ms := none,
               qos := q, retain := r, payload := none }) ∧
    (build_event topic rp q r = none → parse_topic topic = none) := by
  constructor
  · intro info htopic hpl
    unfold build_event
    rw [htopic, hpl]
  · intro h
    unfold build_event at h
    cases htopic : parse_topic topic with
    | none => rfl
    | some info => rw [htopic] at h; simp at h

/-- C8 witness: a well-formed topic with an unparsable JSON body still
decodes, with empty payload. -/
theorem C8_payload_failure_not_fatal_witness :
    build_event "iot/acme/plant1/line3/status" RawPayload.badJson none none =
      some { pfx := "iot", customer := "acme", location := "plant1",
             machine := "line3", subtype := "status", serial_number := none,
             ts_ms := none, qos := none, retain := none, payload := none } :=
  (C8_payload_failure_not_fatal "iot/acme/plant1/line3/status"
      RawPayload.badJson none none).1
    { pfx := "iot", customer := "acme", location := "plant1",
      machine := "line3", subtype := "status" }
    (by decide) rfl

/-- C10: the decoder is total by construction (it is a Lean function on
all topics and all abstracted payload bodies, every field coercion —
`safe_str`, `safe_int`, `pyIntOfString` — returning an `Option` instead of
propagating a failure), and it returns `none` exactly when the topic is
malformed: for every payload body a well-formed topic yields an event. -/
theorem C10_build_event_total (topic : String) (rp : RawPayload)
    (q : Option Int) (r : Option Bool) :
    (build_event topic rp q r = none ↔ parse_topic topic = none) ∧
    (∀ info, parse_topic topic = some info →
      ∃ ev, build_event topic rp q r = some ev) := by
  constructor
  · unfold build_event
    cases htopic : parse_topic topic <;> simp
  · intro info htopic
    unfold build_event
    rw [htopic]
    exact ⟨_, rfl⟩

/-- C10 witness: a malformed-JSON body and a valid topic produce an
event. -/
theorem C10_build_event_total_witness :
    ∃ ev, build_event "iot/acme/plant1/line3/statistics" RawPayload.empty
      (some 1) (some true) = some ev :=
  (C10_build_event_total "iot/acme/plant1/line3/statistics" RawPayload.empty
      (some 1) (some true)).2
    { pfx := "iot", customer := "acme", location := "plant1",
      machine := "line3", subtype := "statistics" }
    (by decide)

/-- C9 counterexample: a payload whose `serial_number` field is the scalar
`null` decodes to an event with NO serial number (`dict.get` returns
Python `None` for a JSON `null` exactly as for an absent key, and
`_safe_str(None)` is `None`), not to the string form of that value. -/
theorem C9_null_serial_counterexample :
    (build_event "iot/acme/plant1/line3/status"
        (RawPayload.decoded (JVal.obj [("serial_number", JVal.null)]))
        none none).map (fun ev => ev.serial_number) = some none ∧
    (build_event "iot/acme/plant1/line3/status"
        (RawPayload.decoded (JVal.obj [("serial_number", JVal.null)]))
        none none).map (fun ev => ev.serial_number) ≠
      some (some (pyStr JVal.null)) := by
  constructor
  · decide
  · decide

/-- C9 (amended): an object payload with a `serial_number` field of scalar
type string, number or boolean yields a decoded event whose serial number
is that value's Python string form; a `null` value (indistinguishable from
an absent key through `dict.get`) yields an event with no serial number. -/
theorem C9_serial_scalar_coercion (topic : String) (info : TopicInfo)
    (fields : List (String × JVal)) (q : Option Int) (r : Option Bool)
    (htopic : parse_topic topic = some info) :
    (∀ s, jget fields "serial_number" = JVal.str s →
      (build_event topic (RawPayload.decoded (JVal.obj fields)) q r).map
        (fun ev => ev.serial_number) = some (some s)) ∧
    (∀ n, jget fields "serial_number" = JVal.int n →
      (build_event topic (RawPayload.decoded (JVal.obj fields)) q r).map
        (fun ev => ev.serial_number) = some (some (toString n))) ∧
    (∀ b, jget fields "serial_number" = JVal.bool b →
      (build_event topic (RawPayload.decoded (JVal.obj fields)) q r).map
        (fun ev => ev.serial_number) = some (some (if b then "True" else "False"))) ∧
    (jget fields "serial_number" = JVal.null →
      (build_event topic (RawPayload.decoded (JVal.obj fields)) q r).map
        (fun ev => ev.serial_number) = some none) := by
  unfold build_event
  rw [htopic]
  simp only [parse_payload]
  refine ⟨fun s h => ?_, fun n h => ?_, fun b h => ?_, fun h => ?_⟩ <;>
    rw [h] <;> rfl

/-- C9 witness: the amended statement applied to a numeric serial at a
concrete topic. -/
theorem C9_serial_scalar_coercion_witness :
    (build_event "iot/acme/plant1/line3/status"
        (RawPayload.decoded (JVal.obj [("serial_number", JVal.int 42)]))
        none none).map (fun ev => ev.serial_number) = some (some "42") := by
  have h := (C9_serial_scalar_coercion "iot/acme/plant1/line3/status"
      { pfx := "iot", customer := "acme", location := "plant1",
        machine := "line3", subtype := "status" }
      [("serial_number", JVal.int 42)] none none (by decide)).2.1 42 rfl
  exact h

/-- C2: starting from a row that is not currently marked offline (no row
yet, or `offline_since` null — the state in which a run of offline reports
begins), applying offline(t1) then offline(t2) leaves `offline_since = t1`
after both writes (sticky since-time), while offline(t1) followed by
online(t2) clears `offline_since` to null. -/
theorem C2_sticky_offline (row? : Option StatusRow) (e1 e2 t1 t2 : Int)
    (h : ∀ r, row? = some r → r.offline_since = none) :
    (upsert_status row? "offline" e1 t1).offline_since = some t1 ∧
    (upsert_status (some (upsert_status row? "offline" e1 t1))
        "offline" e2 t2).offline_since = some t1 ∧
    (upsert_status (some (upsert_status row? "offline" e1 t1))
        "online" e2 t2).offline_since = none := by
  cases row? with
  | none => exact ⟨rfl, rfl, rfl⟩
  | some r =>
    have hr := h r rfl
    refine ⟨?_, ?_, ?_⟩ <;> simp [upsert_status, hr]

/-- C2 witness: the sticky-offline sequence on a fresh device row with
t1 = 1000, t2 = 2000. -/
theorem C2_sticky_offline_witness :
    (upsert_status none "offline" 1 1000).offline_since = some 1000 ∧
    (upsert_status (some (upsert_status none "offline" 1 1000))
        "offline" 2 2000).offline_since = some 1000 ∧
    (upsert_status (some (upsert_status none "offline" 1 1000))
        "online" 2 2000).offline_since = none :=
  C2_sticky_offline none 1 2 1000 2000 (fun r hr => by cases hr)

/-- One `ensure_from_event` step preserves "the device's row, if present,
satisfies the invariant". -/
theorem status_ensure_preserves_inv (ev : IngestEvent) (now : Int)
    (row? : Option StatusRow)
    (h : ∀ r, row? = some r → StatusInv r) :
    ∀ r, status_ensure_from_event ev now row? = some r → StatusInv r := by
  intro r hr
  unfold status_ensure_from_event at hr
  split at hr
  · exact h r hr
  · split at hr
    · exact h r hr
    · split at hr
      · exact h r hr
      · rename_i status hstatus
        cases hr
        unfold upsert_status StatusInv
        cases row? with
        | none =>
          by_cases hoff : status = "offline" <;> simp [hoff]
        | some row =>
          by_cases hoff : status = "offline"
          · cases hsince : row.offline_since <;> simp [hoff, hsince]
          · simp [hoff]

/-- C3: every write of the Status Store establishes the invariant
"`offline_since` is non-null iff `status = offline`" — unconditionally for
a single `upsert_status` (insert as well as update), and hence for the row
produced by any sequence of `ensure_from_event` operations starting from
no row. -/
theorem C3_offline_since_invariant :
    (∀ (row? : Option StatusRow) (status : String) (ts_epoch ts_datetime : Int),
      StatusInv (upsert_status row? status ts_epoch ts_datetime)) ∧
    (∀ (ops : List (IngestEvent × Int)) (r : StatusRow),
      ops.foldl (fun st (p : IngestEvent × Int) =>
        status_ensure_from_event p.1 p.2 st) none = some r →
      StatusInv r) := by
  have step : ∀ (row? : Option StatusRow) (status : String) (e d : Int),
      StatusInv (upsert_status row? status e d) := by
    intro row? status e d
    unfold upsert_status StatusInv
    cases row? with
    | none => by_cases hoff : status = "offline" <;> simp [hoff]
    | some row =>
      by_cases hoff : status = "offline"
      · cases hsince : row.offline_since <;> simp [hoff, hsince]
      · simp [hoff]
  refine ⟨step, ?_⟩
  suffices hgen : ∀ (ops : List (IngestEvent × Int)) (st : Option StatusRow),
      (∀ r, st = some r → StatusInv r) →
      ∀ r, ops.foldl (fun st (p : IngestEvent × Int) =>
        status_ensure_from_event p.1 p.2 st) st = some r → StatusInv r by
    intro ops r hr
    exact hgen ops none (fun r h => by cases h) r hr
  intro ops
  induction ops with
  | nil => intro st hst r hr; exact hst r hr
  | cons op ops ih =>
    intro st hst r hr
    exact ih (status_ensure_from_event op.1 op.2 st)
      (status_ensure_preserves_inv op.1 op.2 st hst) r hr

/-- C3 witness: the sequence offline(1000) → online(2000) on a fresh
device, evaluated concretely, satisfies the invariant. -/
theorem C3_offline_since_invariant_witness :
    StatusInv { status := "online", ts_epoch := 2, ts_datetime := 2000,
                offline_since := none } :=
  C3_offline_since_invariant.2
    [({ pfx := "iot", customer := "acme", location := "plant1",
        machine := "line3", subtype := "status", serial_number := some "SN1",
        ts_ms := some 1000, qos := none, retain := none,
        payload := some [("device_status", JVal.str "offline")] }, 0),
     ({ pfx := "iot", customer := "acme", location := "plant1",
        machine := "line3", subtype := "status", serial_number := some "SN1",
        ts_ms := some 2000, qos := none, retain := none,
        payload := some [("device_status", JVal.str "online")] }, 0)]
    { status := "online", ts_epoch := 2, ts_datetime := 2000,
      offline_since := none }
    (by decide)

/-- C7: a subtype-`status` event that lacks one of the two recognized
status fields leaves the corresponding store untouched: with no
`device_os_version` whose string form is non-empty after trimming, the
OS-version row is unchanged (a previously recorded version is not erased),
and with no recognized `device_status` value, the status row is
unchanged. -/
theorem C7_missing_field_frame (ev : IngestEvent) (now : Int)
    (osRow? : Option OsRow) (stRow? : Option StatusRow)
    (_hsub : ev.subtype = "status") :
    ((∀ p s, ev.payload = some p →
        safe_str (jget p "device_os_version") = some s → pyStrip s = "") →
      os_ensure_from_event ev now osRow? = osRow?) ∧
    ((∀ p, ev.payload = some p →
        normalize_status (jget p "device_status") = none) →
      status_ensure_from_event ev now stRow? = stRow?) := by
  constructor
  · intro hno
    unfold os_ensure_from_event
    split
    · rfl
    · split
      · rfl
      · rename_i p hp
        split
        · rfl
        · rename_i os0 hos
          have hstrip := hno p os0 hp hos
          split
          · rfl
          · simp [hstrip]
  · intro hno
    unfold status_ensure_from_event
    split
    · rfl
    · split
      · rfl
      · rename_i p hp
        rw [hno p hp]

/-- C7 witness: a status event carrying only a serial number (neither
`device_os_version` nor `device_status`) leaves both rows unchanged. -/
theorem C7_missing_field_frame_witness :
    os_ensure_from_event
        { pfx := "iot", customer := "acme", location := "plant1",
          machine := "line3", subtype := "status",
          serial_number := some "SN1", ts_ms := some 1000, qos := none,
          retain := none, payload := some [("serial_number", JVal.str "SN1")] }
        0 (some { os_version := "Windows 11 Pro", ts_epoch := 1,
                  ts_datetime := 1000 }) =
      some { os_version := "Windows 11 Pro", ts_epoch := 1,
             ts_datetime := 1000 } ∧
    status_ensure_from_event
        { pfx := "iot", customer := "acme", location := "plant1",
          machine := "line3", subtype := "status",
          serial_number := some "SN1", ts_ms := some 1000, qos := none,
          retain := none, payload := some [("serial_number", JVal.str "SN1")] }
        0 (some { status := "offline", ts_epoch := 1, ts_datetime := 1000,
                  offline_since := some 1000 }) =
      some { status := "offline", ts_epoch := 1, ts_datetime := 1000,
             offline_since := some 1000 } := by
  have h := C7_missing_field_frame
    { pfx := "iot", customer := "acme", location := "plant1",
      machine := "line3", subtype := "status", serial_number := some "SN1",
      ts_ms := some 1000, qos := none, retain := none,
      payload := some [("serial_number", JVal.str "SN1")] }
    0
    (some { os_version := "Windows 11 Pro", ts_epoch := 1,
            ts_datetime := 1000 })
    (some { status := "offline", ts_epoch := 1, ts_datetime := 1000,
            offline_since := some 1000 })
    rfl
  exact ⟨h.1 (by intro p s hp hs; cases hp; cases hs),
         h.2 (by intro p hp; cases hp; rfl)⟩

/-- C5: the Statistics Store is append-only — an accepted packet appends
exactly one new row, built purely from the payload (no lookup, no merge),
whose numeric sub-fields are the integer coercions of the corresponding
`statistics` sub-fields with `_safe_int_or_zero` (zero when missing or
non-numeric); consequently N accepted packets grow the table by exactly N
rows. -/
theorem C5_statistics_append_only (device_id now : Int) :
    (∀ (ev : IngestEvent) (table : List StatsRow) payload stats,
      ev.subtype = "statistics" → ev.payload = some payload →
      jget payload "statistics" = JVal.obj stats →
      stats_insert_from_event ev device_id now table =
        table ++
          [{ device_id := device_id
             ts_epoch := (event_timestamp ev now).1
             ts_datetime := (event_timestamp ev now).2
             total_items := safe_int_or_zero (jget stats "total_items")
             no_read := safe_int_or_zero (jget stats "no_reads")
             good_read := safe_int_or_zero (jget stats "good_reads")
             no_dimension := safe_int_or_zero (jget stats "no_dimensions")
             no_weight := safe_int_or_zero (jget stats "no_weight")
             data_sent := safe_int_or_zero (jget stats "sent")
             not_sent := safe_int_or_zero (jget stats "not_sent")
             image_sent := safe_int_or_zero (jget stats "image_sent")
             image_not_sent := safe_int_or_zero (jget stats "image_not_sent")
             item_out_of_spec := safe_int_or_zero (jget stats "out_of_spec")
             more_than_1_item :=
               safe_int_or_zero (jget stats "more_than_one_item") }]) ∧
    (∀ (evs : List IngestEvent) (table : List StatsRow),
      (∀ ev ∈ evs, stats_accepted ev) →
      (evs.foldl (fun t ev => stats_insert_from_event ev device_id now t)
          table).length = table.length + evs.length) := by
  have happend : ∀ (ev : IngestEvent) (table : List StatsRow) payload stats,
      ev.subtype = "statistics" → ev.payload = some payload →
      jget payload "statistics" = JVal.obj stats →
      stats_insert_from_event ev device_id now table =
        table ++ [statsRowOfMap device_id (event_timestamp ev now).1
                    (event_timestamp ev now).2 stats] := by
    intro ev table payload stats hsub hp hs
    unfold stats_insert_from_event
    rw [if_neg (by simp [hsub]), hp]
    show (match jget payload "statistics" with
          | JVal.obj stats =>
            let ts := event_timestamp ev now
            table ++ [statsRowOfMap device_id ts.1 ts.2 stats]
          | _ => table) =
      table ++ [statsRowOfMap device_id (event_timestamp ev now).1
                  (event_timestamp ev now).2 stats]
    rw [hs]
  constructor
  · intro ev table payload stats hsub hp hs
    rw [happend ev table payload stats hsub hp hs]
    rfl
  · intro evs
    induction evs with
    | nil => intro table _; simp
    | cons ev evs ih =>
      intro table hacc
      obtain ⟨hsub, payload, stats, hp, hs⟩ := hacc ev (by simp)
      have hstep := happend ev table payload stats hsub hp hs
      simp only [List.foldl_cons, hstep]
      rw [ih (table ++ [statsRowOfMap device_id (event_timestamp ev now).1
            (event_timestamp ev now).2 stats])
          (fun e he => hacc e (by simp [he]))]
      simp
      omega

/-- C5 witness: one accepted statistics packet appended to an empty table,
with a missing field (`no_weight`) and a non-numeric field (`sent`)
defaulting to zero. -/
theorem C5_statistics_append_only_witness :
    stats_insert_from_event
        { pfx := "iot", customer := "acme", location := "plant1",
          machine := "line3", subtype := "statistics",
          serial_number := some "SN1", ts_ms := some 1700000000000,
          qos := none, retain := none,
          payload := some
            [("serial_number", JVal.str "SN1"),
             ("statistics", JVal.obj
                [("total_items", JVal.int 10),
                 ("no_reads", JVal.int 2),
                 ("good_reads", JVal.int 8),
                 ("no_dimensions", JVal.int 1),
                 ("sent", JVal.str "oops"),
                 ("not_sent", JVal.int 0),
                 ("out_of_spec", JVal.int 3),
                 ("more_than_one_item", JVal.int 4)])] }
        7 0 [] =
      [{ device_id := 7, ts_epoch := 1700000000, ts_datetime := 1700000000000,
         total_items := 10, no_read := 2, good_read := 8, no_dimension := 1,
         no_weight := 0, data_sent := 0, not_sent := 0, image_sent := 0,
         image_not_sent := 0, item_out_of_spec := 3,
         more_than_1_item := 4 }] := by
  have h := (C5_statistics_append_only 7 0).1
    { pfx := "iot", customer := "acme", location := "plant1",
      machine := "line3", subtype := "statistics",
      serial_number := some "SN1", ts_ms := some 1700000000000,
      qos := none, retain := none,
      payload := some
        [("serial_number", JVal.str "SN1"),
         ("statistics", JVal.obj
            [("total_items", JVal.int 10),
             ("no_reads", JVal.int 2),
             ("good_reads", JVal.int 8),
             ("no_dimensions", JVal.int 1),
             ("sent", JVal.str "oops"),
             ("not_sent", JVal.int 0),
             ("out_of_spec", JVal.int 3),
             ("more_than_one_item", JVal.int 4)])] }
    []
    [("serial_number", JVal.str "SN1"),
     ("statistics", JVal.obj
        [("total_items", JVal.int 10),
         ("no_reads", JVal.int 2),
         ("good_reads", JVal.int 8),
         ("no_dimensions", JVal.int 1),
         ("sent", JVal.str "oops"),
         ("not_sent", JVal.int 0),
         ("out_of_spec", JVal.int 3),
         ("more_than_one_item", JVal.int 4)])]
    [("total_items", JVal.int 10),
     ("no_reads", JVal.int 2),
     ("good_reads", JVal.int 8),
     ("no_dimensions", JVal.int 1),
     ("sent", JVal.str "oops"),
     ("not_sent", JVal.int 0),
     ("out_of_spec", JVal.int 3),
     ("more_than_one_item", JVal.int 4)]
    rfl rfl rfl
  rw [h]
  decide

/-- C1: for a delivered message whose device identity resolved, the
dispatch boundary of `_on_message` applies every applicable store to the
same event and returns a value (the exception flag of every store call is
swallowed by its `try/except`): each store's resulting state is exactly its
own call's post-state — whatever any store's raised flag was — and a
raised flag never prevents a later store or a later message from being
processed (`process_messages` of `msgs` followed by `more` is
`process_messages` of `more` from the intermediate state). -/
theorem C1_store_failure_isolated {σ₁ σ₂ σ₃ σ₄ : Type} (ev : IngestEvent)
    (statusCall : IngestEvent → σ₁ → σ₁ × Bool)
    (osCall : IngestEvent → σ₂ → σ₂ × Bool)
    (storageCall : IngestEvent → σ₃ → σ₃ × Bool)
    (statsCall : IngestEvent → σ₄ → σ₄ × Bool)
    (st : σ₁ × σ₂ × σ₃ × σ₄) :
    on_message_dispatch ev true statusCall osCall storageCall statsCall st =
      ((if ev.subtype = "status" then (statusCall ev st.1).1 else st.1),
       (if ev.subtype = "status" then (osCall ev st.2.1).1 else st.2.1),
       (if ev.subtype = "storage" then (storageCall ev st.2.2.1).1
        else st.2.2.1),
       (if ev.subtype = "statistics" then (statsCall ev st.2.2.2).1
        else st.2.2.2)) ∧
    ∀ (msgs more : List IngestEvent),
      process_messages statusCall osCall storageCall statsCall
          (msgs ++ more) st =
        process_messages statusCall osCall storageCall statsCall more
          (process_messages statusCall osCall storageCall statsCall msgs st) := by
  constructor
  · simp [on_message_dispatch]
  · intro msgs more
    unfold process_messages
    exact List.foldl_append _ _ msgs more
